import Mathlib

/-!
# opentdcs firmware: ADS1115 acquisition driver and BLE control session

A shallow embedding of `firmware/components/ads1115/ads1115.{h,c}` and of the
request handlers of `firmware/main/main.c`.

Conventions of the embedding

* `uint8_t`, `uint16_t`, `uint32_t` values are `Nat`, reduced `% 2^w` where the C
  code narrows a wider value; `int16_t` values are `Int`; `esp_err_t` is `Int`.
* `float` scale factors are exact rationals: every `lsb_size` constant is a
  dyadic rational and `(float)raw_value * lsb_size` is exact for 16-bit samples.
* A pointer argument is an `Option`: `none` is `NULL`, `some c` points at a cell
  holding `c`; the function returns the content of the cell afterwards.
* The I2C bus and the scheduler are the environment.  Every call the driver
  makes into them is appended to a trace of `BusOp`; the reply of the bus to a
  transaction is `bus (trace ++ [op])`, an arbitrary function of the history.
* Calls into the BLE stack are appended to a log of `LinkOp`.
* `ESP_LOGx` output is not modelled.
-/

namespace OpenTDCS

/-! ## esp_err.h (ESP-IDF) -/

abbrev esp_err_t := Int

def ESP_OK : esp_err_t := 0
def ESP_FAIL : esp_err_t := -1
def ESP_ERR_INVALID_ARG : esp_err_t := 0x102
def ESP_ERR_TIMEOUT : esp_err_t := 0x107

/-! ## ads1115.h -/

def ADS1115_I2C_ADDR_DEFAULT : Nat := 0x48

def ADS1115_REG_CONVERSION : Nat := 0x00
def ADS1115_REG_CONFIG : Nat := 0x01

def ADS1115_OS_SINGLE : Nat := 0x8000
def ADS1115_OS_NOTBUSY : Nat := 0x8000

def ADS1115_MUX_SINGLE_0 : Nat := 0x4000
def ADS1115_MUX_SINGLE_1 : Nat := 0x5000
def ADS1115_MUX_SINGLE_2 : Nat := 0x6000
def ADS1115_MUX_SINGLE_3 : Nat := 0x7000

def ADS1115_PGA_6_144V : Nat := 0x0000
def ADS1115_PGA_4_096V : Nat := 0x0200
def ADS1115_PGA_2_048V : Nat := 0x0400
def ADS1115_PGA_1_024V : Nat := 0x0600
def ADS1115_PGA_0_512V : Nat := 0x0800
def ADS1115_PGA_0_256V : Nat := 0x0A00

def ADS1115_DR_8SPS : Nat := 0x0000
def ADS1115_DR_16SPS : Nat := 0x0020
def ADS1115_DR_32SPS : Nat := 0x0040
def ADS1115_DR_64SPS : Nat := 0x0060
def ADS1115_DR_128SPS : Nat := 0x0080
def ADS1115_DR_250SPS : Nat := 0x00A0
def ADS1115_DR_475SPS : Nat := 0x00C0
def ADS1115_DR_860SPS : Nat := 0x00E0

def ADS1115_CMODE_TRAD : Nat := 0x0000
def ADS1115_CPOL_ACTVLOW : Nat := 0x0000
def ADS1115_CLAT_NONLAT : Nat := 0x0000
def ADS1115_CQUE_NONE : Nat := 0x0003

/-- The struct `ads1115_config_t`. -/
structure ads1115_config_t where
  addr : Nat
  gain : Nat
  data_rate : Nat
deriving DecidableEq, Repr

/-- The struct `ads1115_handle_t`; the I2C device handle is an abstract number. -/
structure ads1115_handle_t where
  config : ads1115_config_t
  i2c_dev_handle : Nat
  initialized : Bool
deriving DecidableEq, Repr

/-- Nominal samples per second of a data-rate selector, as documented next to
the `ADS1115_DR_*` definitions. -/
def nominal_sps (data_rate : Nat) : Option Nat :=
  if data_rate = ADS1115_DR_8SPS then some 8
  else if data_rate = ADS1115_DR_16SPS then some 16
  else if data_rate = ADS1115_DR_32SPS then some 32
  else if data_rate = ADS1115_DR_64SPS then some 64
  else if data_rate = ADS1115_DR_128SPS then some 128
  else if data_rate = ADS1115_DR_250SPS then some 250
  else if data_rate = ADS1115_DR_475SPS then some 475
  else if data_rate = ADS1115_DR_860SPS then some 860
  else none

/-! ## The environment of the driver -/

/-- Calls the driver makes into the I2C master driver and the scheduler. -/
inductive BusOp where
  | i2c_master_transmit (dev : Nat) (data : List Nat) (timeout_ms : Nat)
  | i2c_master_transmit_receive (dev : Nat) (wr : List Nat) (rd_len : Nat) (timeout_ms : Nat)
  | vTaskDelay (ms : Nat)
deriving DecidableEq, Repr

/-- What the bus answers to one transaction: the status and the bytes it stored
in the read buffer. -/
structure BusReply where
  ret : esp_err_t
  data : List Nat
deriving DecidableEq, Repr

/-- The bus: the reply to the last operation of a history of operations. -/
abbrev Bus := List BusOp → BusReply

/-- Whether an operation is a bus transaction (and not a delay). -/
def BusOp.isTransaction : BusOp → Bool
  | .i2c_master_transmit _ _ _ => true
  | .i2c_master_transmit_receive _ _ _ _ => true
  | .vTaskDelay _ => false

/-! ## ads1115.c -/

def ADS1115_TIMEOUT_MS : Nat := 1000

/-- The conversion `(int16_t)x` of a 16-bit unsigned value. -/
def to_int16 (x : Nat) : Int :=
  if x % 65536 < 32768 then ((x % 65536 : Nat) : Int) else ((x % 65536 : Nat) : Int) - 65536

/-- The function `ads1115_write_reg`: one three-byte transmit. -/
def ads1115_write_reg (bus : Bus) (dev : ads1115_handle_t) (reg value : Nat)
    (trace : List BusOp) : esp_err_t × List BusOp :=
  let data : List Nat := [reg % 256, (value >>> 8) &&& 0xFF, value &&& 0xFF]
  let tr := trace ++ [BusOp.i2c_master_transmit dev.i2c_dev_handle data ADS1115_TIMEOUT_MS]
  ((bus tr).ret, tr)

/-- The function `ads1115_read_reg`: one transmit-receive; `value` is the
content of `*value` before the call, the middle component its content after. -/
def ads1115_read_reg (bus : Bus) (dev : ads1115_handle_t) (reg : Nat) (value : Nat)
    (trace : List BusOp) : esp_err_t × Nat × List BusOp :=
  let tr := trace ++
    [BusOp.i2c_master_transmit_receive dev.i2c_dev_handle [reg % 256] 2 ADS1115_TIMEOUT_MS]
  let ret := (bus tr).ret
  if ret ≠ ESP_OK then (ret, value, tr)
  else
    let data0 := (bus tr).data.getD 0 0 % 256
    let data1 := (bus tr).data.getD 1 0 % 256
    (ESP_OK, ((data0 <<< 8) ||| data1) % 65536, tr)

/-- The `switch (dev->config.data_rate)` of `ads1115_read_single`. -/
def conversion_delay_ms (data_rate : Nat) : Nat :=
  if data_rate = ADS1115_DR_8SPS then 130
  else if data_rate = ADS1115_DR_16SPS then 70
  else if data_rate = ADS1115_DR_32SPS then 35
  else if data_rate = ADS1115_DR_64SPS then 20
  else if data_rate = ADS1115_DR_128SPS then 10
  else if data_rate = ADS1115_DR_250SPS then 5
  else if data_rate = ADS1115_DR_475SPS then 3
  else if data_rate = ADS1115_DR_860SPS then 2
  else 10

/-- The configuration word `config_reg` built by `ads1115_read_single`. -/
def config_word (mux gain data_rate : Nat) : Nat :=
  (ADS1115_OS_SINGLE |||
   mux |||
   gain |||
   ADS1115_CMODE_TRAD |||
   ADS1115_CPOL_ACTVLOW |||
   ADS1115_CLAT_NONLAT |||
   ADS1115_CQUE_NONE |||
   data_rate) % 65536

/-- Outcome of `ads1115_read_single`: the status, the content of `*raw_value`
afterwards (`none` when the pointer is `NULL`) and the trace. -/
structure ReadSingleResult where
  ret : esp_err_t
  raw_value : Option Int
  trace : List BusOp
deriving DecidableEq, Repr

/-- The function `ads1115_read_single`. -/
def ads1115_read_single (bus : Bus) (dev : Option ads1115_handle_t) (mux : Nat)
    (raw_value : Option Int) (trace : List BusOp) : ReadSingleResult :=
  match dev, raw_value with
  | some d, some _ =>
    if d.initialized = false then ⟨ESP_ERR_INVALID_ARG, raw_value, trace⟩
    else
      let config_reg := config_word mux d.config.gain d.config.data_rate
      let wr := ads1115_write_reg bus d ADS1115_REG_CONFIG config_reg trace
      if wr.1 ≠ ESP_OK then ⟨wr.1, raw_value, wr.2⟩
      else
        -- readback: on success only compared and logged, on failure ignored
        let rb := ads1115_read_reg bus d ADS1115_REG_CONFIG 0 wr.2
        let delay_ms := conversion_delay_ms d.config.data_rate
        let tr := rb.2.2 ++ [BusOp.vTaskDelay delay_ms]
        let cv := ads1115_read_reg bus d ADS1115_REG_CONVERSION 0 tr
        if cv.1 ≠ ESP_OK then ⟨cv.1, raw_value, cv.2.2⟩
        else ⟨ESP_OK, some (to_int16 cv.2.1), cv.2.2⟩
  | _, _ => ⟨ESP_ERR_INVALID_ARG, raw_value, trace⟩

/-- The function `ads1115_raw_to_voltage`, in millivolts, over exact rationals. -/
def ads1115_raw_to_voltage (raw_value : Int) (gain : Nat) : ℚ :=
  let lsb_size : ℚ :=
    if gain = ADS1115_PGA_6_144V then 0.1875
    else if gain = ADS1115_PGA_4_096V then 0.125
    else if gain = ADS1115_PGA_2_048V then 0.0625
    else if gain = ADS1115_PGA_1_024V then 0.03125
    else if gain = ADS1115_PGA_0_512V then 0.015625
    else if gain = ADS1115_PGA_0_256V then 0.0078125
    else 0.125
  (raw_value : ℚ) * lsb_size

/-- Outcome of `ads1115_read_voltage`. -/
structure ReadVoltageResult where
  ret : esp_err_t
  voltage : Option ℚ
  trace : List BusOp
deriving DecidableEq

/-- The function `ads1115_read_voltage`.  The local `raw_value` starts at 0 in
the model; the last branch of the inner match is never taken, since
`ads1115_read_single` returns `ESP_OK` only for a non-null handle. -/
def ads1115_read_voltage (bus : Bus) (dev : Option ads1115_handle_t) (mux : Nat)
    (voltage : Option ℚ) (trace : List BusOp) : ReadVoltageResult :=
  match voltage with
  | none => ⟨ESP_ERR_INVALID_ARG, none, trace⟩
  | some _ =>
    let r := ads1115_read_single bus dev mux (some 0) trace
    if r.ret ≠ ESP_OK then ⟨r.ret, voltage, r.trace⟩
    else
      match dev, r.raw_value with
      | some d, some raw => ⟨ESP_OK, some (ads1115_raw_to_voltage raw d.config.gain), r.trace⟩
      | _, _ => ⟨ESP_OK, voltage, r.trace⟩

/-! ## main.c: shared state and the calls into the BLE stack -/

def ESP_GATT_OK : Nat := 0
def ESP_GATT_CHAR_PROP_BIT_READ : Nat := 0x02
def ESP_GATT_CHAR_PROP_BIT_WRITE : Nat := 0x08
def ESP_GATT_PERM_READ : Nat := 0x01
def ESP_GATT_PERM_WRITE : Nat := 0x10
def ESP_UUID_LEN_16 : Nat := 2

def GATTS_SERVICE_UUID_TEST_A : Nat := 0x00FF
def GATTS_CHAR_UUID_TEST_A : Nat := 0xFF01
def GATTS_NUM_HANDLE_TEST_A : Nat := 4

/-- Output State: the globals `dac_out_val` and `dac_enabled`. -/
structure OutputState where
  dac_out_val : Nat
  dac_enabled : Bool
deriving DecidableEq, Repr

/-- The part of `esp_gatt_rsp_t` the firmware fills: `attr_value.handle`,
`attr_value.len` and the first `len` bytes of `attr_value.value`; the rest of
the buffer is zero after the `memset`. -/
structure esp_gatt_rsp_t where
  handle : Nat
  len : Nat
  value : List Nat
deriving DecidableEq, Repr

/-- Calls the firmware makes into the BLE stack. -/
inductive LinkOp where
  | esp_ble_gatts_send_response (gatts_if conn_id trans_id status : Nat)
      (rsp : Option esp_gatt_rsp_t)
  | esp_ble_gap_set_device_name
  | esp_ble_gap_config_adv_data
  | esp_ble_gatts_create_service (gatts_if uuid16 num_handle : Nat)
  | esp_ble_gatts_start_service (service_handle : Nat)
  | esp_ble_gatts_add_char (service_handle uuid16 perm property : Nat)
  | esp_ble_gap_start_advertising
deriving DecidableEq, Repr

/-- The fields of `param->read` the handler uses. -/
structure read_evt_param where
  conn_id : Nat
  trans_id : Nat
  handle : Nat
deriving DecidableEq, Repr

/-- The fields of `param->write` the handler uses. -/
structure write_evt_param where
  conn_id : Nat
  trans_id : Nat
  need_rsp : Bool
  len : Nat
  value : List Nat
deriving DecidableEq, Repr

/-- The function `handle_dac_write`. -/
def handle_dac_write (value : Nat) (s : OutputState) : OutputState :=
  if value = 254 then { s with dac_enabled := true }
  else if value = 253 then { s with dac_enabled := false }
  else { s with dac_out_val := value }

/-- The function `ads1115_setup`'s configuration. -/
def ads1115_setup_config : ads1115_config_t :=
  ⟨ADS1115_I2C_ADDR_DEFAULT, ADS1115_PGA_4_096V, ADS1115_DR_64SPS⟩

/-- The conversion of an `int` expression to `uint8_t`. -/
def to_uint8 (x : Int) : Nat := (x % 256).toNat

/-- The byte `(raw >> 8) & 0xFF` stored in the response. -/
def hi_byte (raw : Int) : Nat := to_uint8 (Int.land (Int.shiftRight raw 8) 0xFF)

/-- The byte `raw & 0xFF` stored in the response. -/
def lo_byte (raw : Int) : Nat := to_uint8 (Int.land raw 0xFF)

/-- Outcome of `gatts_read_adc`: the calls made into the BLE stack and the bus
trace. -/
structure ReadAdcResult where
  link : List LinkOp
  trace : List BusOp
deriving DecidableEq, Repr

/-- The value a channel variable holds after its acquisition in
`gatts_read_adc`: zero on error, else what `ads1115_read_single` stored. -/
def chan_raw (r : ReadSingleResult) : Int :=
  if r.ret ≠ ESP_OK then 0 else r.raw_value.getD 0

/-- The function `gatts_read_adc`; `ads1115_dev` is the static device handle. -/
def gatts_read_adc (bus : Bus) (ads1115_dev : ads1115_handle_t) (gatts_if : Nat)
    (param : read_evt_param) (trace : List BusOp) : ReadAdcResult :=
  let r0 := ads1115_read_single bus (some ads1115_dev) ADS1115_MUX_SINGLE_0 (some 0) trace
  let chan0_raw := chan_raw r0
  let r1 := ads1115_read_single bus (some ads1115_dev) ADS1115_MUX_SINGLE_1 (some 0) r0.trace
  let chan1_raw := chan_raw r1
  let r2 := ads1115_read_single bus (some ads1115_dev) ADS1115_MUX_SINGLE_2 (some 0) r1.trace
  let chan2_raw := chan_raw r2
  let r3 := ads1115_read_single bus (some ads1115_dev) ADS1115_MUX_SINGLE_3 (some 0) r2.trace
  let chan3_raw := chan_raw r3
  let rsp : esp_gatt_rsp_t :=
    { handle := param.handle
      len := 8
      value := [hi_byte chan0_raw, lo_byte chan0_raw,
                hi_byte chan1_raw, lo_byte chan1_raw,
                hi_byte chan2_raw, lo_byte chan2_raw,
                hi_byte chan3_raw, lo_byte chan3_raw] }
  { link := [LinkOp.esp_ble_gatts_send_response gatts_if param.conn_id param.trans_id
              ESP_GATT_OK (some rsp)]
    trace := r3.trace }

/-- The entry of `gl_profile_tab` for profile A, as far as the handler writes it. -/
structure gatts_profile_inst where
  gatts_if : Nat
  conn_id : Nat
  service_handle : Nat
  service_id_is_primary : Bool
  service_id_inst_id : Nat
  service_id_uuid_len : Nat
  service_id_uuid16 : Nat
  char_handle : Nat
  char_uuid_len : Nat
  char_uuid16 : Nat
deriving DecidableEq, Repr

/-- The globals the profile event handler reads and writes, with the logs of
its calls into the environment. -/
structure FirmwareState where
  profile : gatts_profile_inst
  a_property : Nat
  out : OutputState
  ads1115_dev : ads1115_handle_t
  link : List LinkOp
  trace : List BusOp
deriving DecidableEq, Repr

/-- The events of `esp_gatts_cb_event_t` with the parameters the handler reads. -/
inductive GattsEvent where
  | ESP_GATTS_REG_EVT
  | ESP_GATTS_READ_EVT (read : read_evt_param)
  | ESP_GATTS_WRITE_EVT (write : write_evt_param)
  | ESP_GATTS_CREATE_EVT (service_handle : Nat)
  | ESP_GATTS_ADD_CHAR_EVT (attr_handle : Nat)
  | ESP_GATTS_CONNECT_EVT (conn_id : Nat)
  | ESP_GATTS_DISCONNECT_EVT
  | other
deriving DecidableEq, Repr

/-- The function `gatts_profile_a_event_handler`. -/
def gatts_profile_a_event_handler (bus : Bus) (event : GattsEvent) (gatts_if : Nat)
    (s : FirmwareState) : FirmwareState :=
  match event with
  | .ESP_GATTS_REG_EVT =>
    let p := { s.profile with
      service_id_is_primary := true
      service_id_inst_id := 0x00
      service_id_uuid_len := ESP_UUID_LEN_16
      service_id_uuid16 := GATTS_SERVICE_UUID_TEST_A }
    { s with
      profile := p
      link := s.link ++ [LinkOp.esp_ble_gap_set_device_name,
                         LinkOp.esp_ble_gap_config_adv_data,
                         LinkOp.esp_ble_gatts_create_service gatts_if
                           GATTS_SERVICE_UUID_TEST_A GATTS_NUM_HANDLE_TEST_A] }
  | .ESP_GATTS_READ_EVT read =>
    let r := gatts_read_adc bus s.ads1115_dev gatts_if read s.trace
    { s with link := s.link ++ r.link, trace := r.trace }
  | .ESP_GATTS_WRITE_EVT write =>
    let out := if write.len = 1 then handle_dac_write (write.value.getD 0 0) s.out else s.out
    let link :=
      if write.need_rsp then
        s.link ++ [LinkOp.esp_ble_gatts_send_response gatts_if write.conn_id write.trans_id
                    ESP_GATT_OK none]
      else s.link
    { s with out := out, link := link }
  | .ESP_GATTS_CREATE_EVT service_handle =>
    let p := { s.profile with
      service_handle := service_handle
      char_uuid_len := ESP_UUID_LEN_16
      char_uuid16 := GATTS_CHAR_UUID_TEST_A }
    let a_property := ESP_GATT_CHAR_PROP_BIT_READ ||| ESP_GATT_CHAR_PROP_BIT_WRITE
    { s with
      profile := p
      a_property := a_property
      link := s.link ++ [LinkOp.esp_ble_gatts_start_service service_handle,
                         LinkOp.esp_ble_gatts_add_char service_handle GATTS_CHAR_UUID_TEST_A
                           (ESP_GATT_PERM_READ ||| ESP_GATT_PERM_WRITE) a_property] }
  | .ESP_GATTS_ADD_CHAR_EVT attr_handle =>
    { s with profile := { s.profile with char_handle := attr_handle } }
  | .ESP_GATTS_CONNECT_EVT conn_id =>
    { s with profile := { s.profile with conn_id := conn_id } }
  | .ESP_GATTS_DISCONNECT_EVT =>
    { s with link := s.link ++ [LinkOp.esp_ble_gap_start_advertising] }
  | .other => s

/-! ## main.c: the periodic output task -/

/-- What one pass of the loop of `dac_output_task` does to the environment. -/
inductive TaskOp where
  | dac_oneshot_output_voltage (value : Nat)
  | vTaskDelay (ms : Nat)
  | abort (err : esp_err_t)
deriving DecidableEq, Repr

/-- One iteration of the `while (1)` of `dac_output_task`; `ret` is what
`dac_oneshot_output_voltage` returns, and `ESP_ERROR_CHECK` aborts when it is
not `ESP_OK`.  Returns the operations issued and the Output State afterwards. -/
def dac_output_task_iteration (s : OutputState) (ret : esp_err_t) :
    List TaskOp × OutputState :=
  let write :=
    if s.dac_enabled then TaskOp.dac_oneshot_output_voltage s.dac_out_val
    else TaskOp.dac_oneshot_output_voltage 255
  if ret ≠ ESP_OK then ([write, TaskOp.abort ret], s)
  else ([write, TaskOp.vTaskDelay 500], s)

/-- The function `dac_output_task` run for at most `fuel` iterations; `rets n`
is what the `n`-th call of `dac_oneshot_output_voltage` returns. -/
def dac_output_task (rets : Nat → esp_err_t) (s : OutputState) : Nat → Nat → List TaskOp
  | 0, _ => []
  | fuel + 1, n =>
    let it := dac_output_task_iteration s (rets n)
    if rets n ≠ ESP_OK then it.1 else it.1 ++ dac_output_task rets it.2 fuel (n + 1)

/-- The levels written to the output stage by a list of task operations. -/
def written_levels : List TaskOp → List Nat
  | [] => []
  | TaskOp.dac_oneshot_output_voltage v :: ops => v :: written_levels ops
  | _ :: ops => written_levels ops

/-! ## Reading the wire format back -/

/-- Decoding of a byte pair as a big-endian two's-complement 16-bit value. -/
def decode_be_int16 (hi lo : Nat) : Int :=
  let u := hi * 256 + lo
  if u < 32768 then (u : Int) else (u : Int) - 65536

/-! ## Reading traces -/

/-- Whether an operation is an `i2c_master_transmit`, a register write. -/
def BusOp.isTransmit : BusOp → Bool
  | .i2c_master_transmit _ _ _ => true
  | _ => false

/-- The transmit by which `ads1115_read_single` writes the configuration
register for channel selector `mux`. -/
def config_write_op (d : ads1115_handle_t) (mux : Nat) : BusOp :=
  BusOp.i2c_master_transmit d.i2c_dev_handle
    [ADS1115_REG_CONFIG % 256,
     (config_word mux d.config.gain d.config.data_rate >>> 8) &&& 0xFF,
     config_word mux d.config.gain d.config.data_rate &&& 0xFF]
    ADS1115_TIMEOUT_MS

/-- The transmit-receive by which `ads1115_read_reg` reads register `reg`. -/
def reg_read_op (d : ads1115_handle_t) (reg : Nat) : BusOp :=
  BusOp.i2c_master_transmit_receive d.i2c_dev_handle [reg % 256] 2 ADS1115_TIMEOUT_MS

/-- A byte pair of the read response reflects the outcome `r` of a channel
acquisition: zero when the acquisition failed, else two bytes that decode,
big-endian two's complement, to the sample stored by the acquisition. -/
def pair_reflects (r : ReadSingleResult) (hi lo : Nat) : Prop :=
  if r.ret ≠ ESP_OK then hi = 0 ∧ lo = 0
  else hi < 256 ∧ lo < 256 ∧ r.raw_value = some (decode_be_int16 hi lo)

/-! ## Concrete environments -/

/-- A bus for scenarios.  The channel being acquired is counted from the
configuration writes issued so far; the configuration write of a channel listed
in `failing` is answered with `fail_code`, every other transaction succeeds; a
read of the conversion register returns the two bytes of `samples` for the
channel, a read of the configuration register returns `readback`. -/
def scenario_bus (samples : List (Nat × Nat)) (failing : List Nat) (fail_code : esp_err_t)
    (readback : BusReply) : Bus := fun history =>
  let writes := history.filter fun op =>
    match op with
    | .i2c_master_transmit _ _ _ => true
    | _ => false
  let chan := writes.length - 1
  match history.getLast? with
  | some (.i2c_master_transmit _ _ _) =>
    if chan ∈ failing then ⟨fail_code, []⟩ else ⟨ESP_OK, []⟩
  | some (.i2c_master_transmit_receive _ wr _ _) =>
    if wr = [ADS1115_REG_CONVERSION] then
      ⟨ESP_OK, [(samples.getD chan (0, 0)).1, (samples.getD chan (0, 0)).2]⟩
    else readback
  | _ => ⟨ESP_OK, []⟩

/-- The device handle as `ads1115_setup` leaves it: gain 4.096 V, 64 sps. -/
def setup_dev : ads1115_handle_t := ⟨ads1115_setup_config, 1, true⟩

/-- The bus of the scenario with raw samples 100, -50, 0 and 32767. -/
def bus_100_m50_0_32767 : Bus :=
  scenario_bus [(0x00, 0x64), (0xFF, 0xCE), (0x00, 0x00), (0x7F, 0xFF)] [] (-1) ⟨ESP_OK, [0x42, 0x63]⟩

/-- The four operations of one successful acquisition by `setup_dev` (64 sps)
with configuration word `cfg`. -/
def acquisition_ops (cfg : Nat) : List BusOp :=
  [BusOp.i2c_master_transmit 1 [0x01, cfg >>> 8, cfg &&& 0xFF] 1000,
   BusOp.i2c_master_transmit_receive 1 [0x01] 2 1000,
   BusOp.vTaskDelay 20,
   BusOp.i2c_master_transmit_receive 1 [0x00] 2 1000]

/-- The bus of the scenario in which the acquisition of channel 2 fails: the
samples on offer are 0x0102, -50, 0x1234 and -32768, and the configuration
write for channel 2 is answered with the error `-1`. -/
def bus_chan2_fails : Bus :=
  scenario_bus [(0x01, 0x02), (0xFF, 0xCE), (0x12, 0x34), (0x80, 0x00)] [2] (-1)
    ⟨ESP_OK, [0x42, 0x63]⟩

/-- A bus that answers its `n`-th transaction with the `n`-th reply of a
script, and with success and no data once the script is used up. -/
def scripted_bus (replies : List BusReply) : Bus := fun history =>
  replies.getD ((history.filter BusOp.isTransaction).length - 1) ⟨ESP_OK, []⟩

/-- The bus on which the configuration write times out. -/
def bus_write_fails : Bus := scripted_bus [⟨ESP_ERR_TIMEOUT, []⟩]

/-- The bus on which the configuration write and readback succeed and the read
of the conversion register fails. -/
def bus_conversion_fails : Bus :=
  scripted_bus [⟨ESP_OK, []⟩, ⟨ESP_OK, [0x42, 0x63]⟩, ⟨ESP_FAIL, []⟩]

/-- The bus on which only the readback of the configuration register fails; the
conversion register then reads 0x1234. -/
def bus_readback_fails : Bus :=
  scripted_bus [⟨ESP_OK, []⟩, ⟨ESP_ERR_TIMEOUT, []⟩, ⟨ESP_OK, [0x12, 0x34]⟩]

/-- A device handle that was never initialized. -/
def uninit_dev : ads1115_handle_t := ⟨⟨0, 0, 0⟩, 0, false⟩

/-- A firmware state for scenarios: level 200, output enabled, nothing logged. -/
def scenario_state : FirmwareState :=
  { profile := ⟨3, 0, 40, true, 0, 2, 0x00FF, 42, 2, 0xFF01⟩
    a_property := 0x0A
    out := ⟨200, true⟩
    ads1115_dev := setup_dev
    link := []
    trace := [] }

/-! ## The selectors of ads1115.h -/

/-- The four single-ended channel selectors `ADS1115_MUX_SINGLE_*`. -/
def single_ended_selectors : List Nat :=
  [ADS1115_MUX_SINGLE_0, ADS1115_MUX_SINGLE_1, ADS1115_MUX_SINGLE_2, ADS1115_MUX_SINGLE_3]

/-- The six gain selectors `ADS1115_PGA_*`. -/
def gain_selectors : List Nat :=
  [ADS1115_PGA_6_144V, ADS1115_PGA_4_096V, ADS1115_PGA_2_048V, ADS1115_PGA_1_024V,
   ADS1115_PGA_0_512V, ADS1115_PGA_0_256V]

/-- The eight data-rate selectors `ADS1115_DR_*`. -/
def rate_selectors : List Nat :=
  [ADS1115_DR_8SPS, ADS1115_DR_16SPS, ADS1115_DR_32SPS, ADS1115_DR_64SPS,
   ADS1115_DR_128SPS, ADS1115_DR_250SPS, ADS1115_DR_475SPS, ADS1115_DR_860SPS]

/-- The theoretical conversion period, in milliseconds, of a nominal rate of
`sps` samples per second. -/
def conversion_period_ms (sps : Nat) : ℚ := 1000 / (sps : ℚ)

/-! ## Arithmetic of the byte operations -/

theorem nat_ldiff_255 (n : Nat) : Nat.ldiff 255 n = 255 - n % 256 := by
  apply Nat.eq_of_testBit_eq
  intro i
  have h : n % 256 < 2 ^ 8 := Nat.mod_lt _ (by norm_num)
  have e : 255 - n % 256 = 2 ^ 8 - (n % 256 + 1) := by omega
  rw [Nat.testBit_ldiff, e, Nat.testBit_two_pow_sub_succ h]
  have h255 : (255 : Nat) = 2 ^ 8 - 1 := by norm_num
  rw [h255, Nat.testBit_two_pow_sub_one]
  have hm : (n % 256) = n % 2 ^ 8 := by norm_num
  rw [hm, Nat.testBit_mod_two_pow]
  by_cases hi : i < 8 <;> simp [hi]

theorem int_land_255 (x : Int) : Int.land x 255 = x % 256 := by
  cases x with
  | ofNat n =>
    show ((n &&& 255 : Nat) : Int) = (n : Int) % 256
    have h := Nat.and_pow_two_sub_one_eq_mod n 8
    norm_num at h
    rw [h]; rfl
  | negSucc n =>
    show ((Nat.ldiff 255 n : Nat) : Int) = Int.negSucc n % 256
    rw [nat_ldiff_255, Int.negSucc_eq]
    omega

theorem int_shiftRight_8 (x : Int) : Int.shiftRight x 8 = x / 256 := by
  have h := Int.shiftRight_eq_div_pow x 8
  norm_num at h
  exact h

theorem lo_byte_eq (raw : Int) : (lo_byte raw : Int) = raw % 256 := by
  unfold lo_byte to_uint8
  rw [int_land_255]
  omega

theorem hi_byte_eq (raw : Int) : (hi_byte raw : Int) = raw / 256 % 256 := by
  unfold hi_byte to_uint8
  rw [int_land_255, int_shiftRight_8]
  omega

theorem lo_byte_lt (raw : Int) : lo_byte raw < 256 := by
  have h := lo_byte_eq raw
  omega

theorem hi_byte_lt (raw : Int) : hi_byte raw < 256 := by
  have h := hi_byte_eq raw
  omega

theorem decode_hi_lo (v : Int) (hlo : -32768 ≤ v) (hhi : v < 32768) :
    decode_be_int16 (hi_byte v) (lo_byte v) = v := by
  have h1 := hi_byte_eq v
  have h2 := lo_byte_eq v
  unfold decode_be_int16
  simp only
  split <;> push_cast <;> omega

theorem to_int16_range (x : Nat) : -32768 ≤ to_int16 x ∧ to_int16 x < 32768 := by
  unfold to_int16
  split <;> omega

theorem invalid_arg_ne_ok : ESP_ERR_INVALID_ARG ≠ ESP_OK := by decide

/-- A successful `ads1115_read_single` stores a value of the `int16_t` range. -/
theorem read_single_ok_range (bus : Bus) (dev : Option ads1115_handle_t) (mux : Nat)
    (cell : Option Int) (trace : List BusOp)
    (hok : (ads1115_read_single bus dev mux cell trace).ret = ESP_OK) :
    ∃ v, (ads1115_read_single bus dev mux cell trace).raw_value = some v ∧
      -32768 ≤ v ∧ v < 32768 := by
  cases dev with
  | none => exact absurd hok invalid_arg_ne_ok
  | some d =>
    cases cell with
    | none => exact absurd hok invalid_arg_ne_ok
    | some c =>
      simp only [ads1115_read_single] at hok ⊢
      split_ifs at hok ⊢ with h1 h2 h3
      · exact absurd hok invalid_arg_ne_ok
      · exact absurd hok h2
      · exact absurd hok h3
      · exact ⟨_, rfl, to_int16_range _⟩

/-! ## The read-request handler -/

/-- C1: when the four channel reads of `gatts_read_adc` succeed with raw samples
`v0 .. v3`, the handler sends one response of length 8 whose bytes are all below
256 and whose byte pair `[2c, 2c+1]`, decoded as a big-endian two's-complement
16-bit value, is `v_c`, for each channel `c` of 0..3. -/
theorem gatts_read_adc_roundtrip (bus : Bus) (dev : ads1115_handle_t) (gatts_if : Nat)
    (param : read_evt_param) (trace : List BusOp) (v0 v1 v2 v3 : Int)
    (t1 t2 t3 t4 : List BusOp)
    (h0 : ads1115_read_single bus (some dev) ADS1115_MUX_SINGLE_0 (some 0) trace
            = ⟨ESP_OK, some v0, t1⟩)
    (h1 : ads1115_read_single bus (some dev) ADS1115_MUX_SINGLE_1 (some 0) t1
            = ⟨ESP_OK, some v1, t2⟩)
    (h2 : ads1115_read_single bus (some dev) ADS1115_MUX_SINGLE_2 (some 0) t2
            = ⟨ESP_OK, some v2, t3⟩)
    (h3 : ads1115_read_single bus (some dev) ADS1115_MUX_SINGLE_3 (some 0) t3
            = ⟨ESP_OK, some v3, t4⟩) :
    ∃ rsp : esp_gatt_rsp_t,
      (gatts_read_adc bus dev gatts_if param trace).link =
        [LinkOp.esp_ble_gatts_send_response gatts_if param.conn_id param.trans_id
          ESP_GATT_OK (some rsp)] ∧
      rsp.len = 8 ∧ rsp.value.length = 8 ∧ (∀ b ∈ rsp.value, b < 256) ∧
      decode_be_int16 (rsp.value.getD 0 0) (rsp.value.getD 1 0) = v0 ∧
      decode_be_int16 (rsp.value.getD 2 0) (rsp.value.getD 3 0) = v1 ∧
      decode_be_int16 (rsp.value.getD 4 0) (rsp.value.getD 5 0) = v2 ∧
      decode_be_int16 (rsp.value.getD 6 0) (rsp.value.getD 7 0) = v3 := by
  have r0 := read_single_ok_range bus (some dev) ADS1115_MUX_SINGLE_0 (some 0) trace
    (by rw [h0])
  have r1 := read_single_ok_range bus (some dev) ADS1115_MUX_SINGLE_1 (some 0) t1
    (by rw [h1])
  have r2 := read_single_ok_range bus (some dev) ADS1115_MUX_SINGLE_2 (some 0) t2
    (by rw [h2])
  have r3 := read_single_ok_range bus (some dev) ADS1115_MUX_SINGLE_3 (some 0) t3
    (by rw [h3])
  rw [h0] at r0
  rw [h1] at r1
  rw [h2] at r2
  rw [h3] at r3
  obtain ⟨a0, e0, l0, u0⟩ := r0
  obtain ⟨a1, e1, l1, u1⟩ := r1
  obtain ⟨a2, e2, l2, u2⟩ := r2
  obtain ⟨a3, e3, l3, u3⟩ := r3
  cases e0
  cases e1
  cases e2
  cases e3
  refine ⟨⟨param.handle, 8, [hi_byte v0, lo_byte v0, hi_byte v1, lo_byte v1,
    hi_byte v2, lo_byte v2, hi_byte v3, lo_byte v3]⟩, ?_, ?_⟩
  · simp [gatts_read_adc, h0, h1, h2, h3, chan_raw]
  · refine ⟨rfl, rfl, ?_, decode_hi_lo _ l0 u0, decode_hi_lo _ l1 u1,
      decode_hi_lo _ l2 u2, decode_hi_lo _ l3 u3⟩
    intro b hb
    simp only [List.mem_cons, List.mem_singleton, List.mem_nil_iff, or_false] at hb
    rcases hb with h | h | h | h | h | h | h | h <;> subst h <;>
      first | exact hi_byte_lt _ | exact lo_byte_lt _

/-- Witness of C1: with gain 4.096 V and 64 sps, the bus returning the raw
samples 100, -50, 0 and 32767, the four reads succeed and the response bytes are
00 64 FF CE 00 00 7F FF. -/
theorem gatts_read_adc_roundtrip_witness :
    (ads1115_read_single bus_100_m50_0_32767 (some setup_dev) ADS1115_MUX_SINGLE_0 (some 0) []
        = ⟨ESP_OK, some 100, acquisition_ops 0xC263⟩ ∧
     ads1115_read_single bus_100_m50_0_32767 (some setup_dev) ADS1115_MUX_SINGLE_1 (some 0)
        (acquisition_ops 0xC263)
        = ⟨ESP_OK, some (-50), acquisition_ops 0xC263 ++ acquisition_ops 0xD263⟩ ∧
     ads1115_read_single bus_100_m50_0_32767 (some setup_dev) ADS1115_MUX_SINGLE_2 (some 0)
        (acquisition_ops 0xC263 ++ acquisition_ops 0xD263)
        = ⟨ESP_OK, some 0,
            acquisition_ops 0xC263 ++ acquisition_ops 0xD263 ++ acquisition_ops 0xE263⟩ ∧
     ads1115_read_single bus_100_m50_0_32767 (some setup_dev) ADS1115_MUX_SINGLE_3 (some 0)
        (acquisition_ops 0xC263 ++ acquisition_ops 0xD263 ++ acquisition_ops 0xE263)
        = ⟨ESP_OK, some 32767,
            acquisition_ops 0xC263 ++ acquisition_ops 0xD263 ++ acquisition_ops 0xE263 ++
              acquisition_ops 0xF263⟩) ∧
    (∃ rsp : esp_gatt_rsp_t,
      (gatts_read_adc bus_100_m50_0_32767 setup_dev 3 ⟨0, 7, 42⟩ []).link =
        [LinkOp.esp_ble_gatts_send_response 3 0 7 ESP_GATT_OK (some rsp)] ∧
      rsp.len = 8 ∧ rsp.value.length = 8 ∧ (∀ b ∈ rsp.value, b < 256) ∧
      decode_be_int16 (rsp.value.getD 0 0) (rsp.value.getD 1 0) = 100 ∧
      decode_be_int16 (rsp.value.getD 2 0) (rsp.value.getD 3 0) = -50 ∧
      decode_be_int16 (rsp.value.getD 4 0) (rsp.value.getD 5 0) = 0 ∧
      decode_be_int16 (rsp.value.getD 6 0) (rsp.value.getD 7 0) = 32767) ∧
    (gatts_read_adc bus_100_m50_0_32767 setup_dev 3 ⟨0, 7, 42⟩ []).link =
      [LinkOp.esp_ble_gatts_send_response 3 0 7 ESP_GATT_OK
        (some ⟨42, 8, [0x00, 0x64, 0xFF, 0xCE, 0x00, 0x00, 0x7F, 0xFF]⟩)] := by
  have h0 : ads1115_read_single bus_100_m50_0_32767 (some setup_dev) ADS1115_MUX_SINGLE_0
      (some 0) [] = ⟨ESP_OK, some 100, acquisition_ops 0xC263⟩ := by decide
  have h1 : ads1115_read_single bus_100_m50_0_32767 (some setup_dev) ADS1115_MUX_SINGLE_1
      (some 0) (acquisition_ops 0xC263)
      = ⟨ESP_OK, some (-50), acquisition_ops 0xC263 ++ acquisition_ops 0xD263⟩ := by decide
  have h2 : ads1115_read_single bus_100_m50_0_32767 (some setup_dev) ADS1115_MUX_SINGLE_2
      (some 0) (acquisition_ops 0xC263 ++ acquisition_ops 0xD263)
      = ⟨ESP_OK, some 0,
          acquisition_ops 0xC263 ++ acquisition_ops 0xD263 ++ acquisition_ops 0xE263⟩ := by
    decide
  have h3 : ads1115_read_single bus_100_m50_0_32767 (some setup_dev) ADS1115_MUX_SINGLE_3
      (some 0) (acquisition_ops 0xC263 ++ acquisition_ops 0xD263 ++ acquisition_ops 0xE263)
      = ⟨ESP_OK, some 32767,
          acquisition_ops 0xC263 ++ acquisition_ops 0xD263 ++ acquisition_ops 0xE263 ++
            acquisition_ops 0xF263⟩ := by decide
  refine ⟨⟨h0, h1, h2, h3⟩,
    gatts_read_adc_roundtrip bus_100_m50_0_32767 setup_dev 3 ⟨0, 7, 42⟩ [] 100 (-50) 0 32767
      _ _ _ _ h0 h1 h2 h3, ?_⟩
  have b1 : hi_byte 100 = 0x00 := by have h := hi_byte_eq 100; omega
  have b2 : lo_byte 100 = 0x64 := by have h := lo_byte_eq 100; omega
  have b3 : hi_byte (-50) = 0xFF := by have h := hi_byte_eq (-50); omega
  have b4 : lo_byte (-50) = 0xCE := by have h := lo_byte_eq (-50); omega
  have b5 : hi_byte 0 = 0x00 := by have h := hi_byte_eq 0; omega
  have b6 : lo_byte 0 = 0x00 := by have h := lo_byte_eq 0; omega
  have b7 : hi_byte 32767 = 0x7F := by have h := hi_byte_eq 32767; omega
  have b8 : lo_byte 32767 = 0xFF := by have h := lo_byte_eq 32767; omega
  simp only [gatts_read_adc, h0, h1, h2, h3]
  simp [chan_raw, b1, b2, b3, b4, b5, b6, b7, b8]

/-! ## Traces of the driver -/

theorem write_reg_trace (bus : Bus) (d : ads1115_handle_t) (mux : Nat) (trace : List BusOp) :
    (ads1115_write_reg bus d ADS1115_REG_CONFIG
      (config_word mux d.config.gain d.config.data_rate) trace).2
      = trace ++ [config_write_op d mux] := rfl

theorem read_reg_trace (bus : Bus) (d : ads1115_handle_t) (reg value : Nat)
    (trace : List BusOp) :
    (ads1115_read_reg bus d reg value trace).2.2 = trace ++ [reg_read_op d reg] := by
  unfold ads1115_read_reg
  simp only
  split <;> rfl

theorem read_single_uninit (bus : Bus) (d : ads1115_handle_t) (mux : Nat) (c : Int)
    (trace : List BusOp) (h : d.initialized = false) :
    ads1115_read_single bus (some d) mux (some c) trace
      = ⟨ESP_ERR_INVALID_ARG, some c, trace⟩ := by
  simp [ads1115_read_single, h]

/-- An acquisition by an initialized handle appends operations of which exactly
one is a register write: the configuration write for its channel. -/
theorem read_single_trace_init (bus : Bus) (d : ads1115_handle_t) (mux : Nat) (c : Int)
    (trace : List BusOp) (h : d.initialized = true) :
    ∃ ops, (ads1115_read_single bus (some d) mux (some c) trace).trace = trace ++ ops ∧
      ops.filter BusOp.isTransmit = [config_write_op d mux] := by
  simp only [ads1115_read_single, h, Bool.true_eq_false, if_false]
  split_ifs with h1 h2
  · exact ⟨[config_write_op d mux], rfl, rfl⟩
  · refine ⟨[config_write_op d mux, reg_read_op d ADS1115_REG_CONFIG,
      BusOp.vTaskDelay (conversion_delay_ms d.config.data_rate),
      reg_read_op d ADS1115_REG_CONVERSION], ?_, rfl⟩
    simp only [read_reg_trace, write_reg_trace, List.append_assoc, List.cons_append,
      List.nil_append]
  · refine ⟨[config_write_op d mux, reg_read_op d ADS1115_REG_CONFIG,
      BusOp.vTaskDelay (conversion_delay_ms d.config.data_rate),
      reg_read_op d ADS1115_REG_CONVERSION], ?_, rfl⟩
    simp only [read_reg_trace, write_reg_trace, List.append_assoc, List.cons_append,
      List.nil_append]

/-- The byte pair `gatts_read_adc` stores for a channel reflects the outcome of
the acquisition of that channel. -/
theorem pair_reflects_chan_raw (bus : Bus) (dev : Option ads1115_handle_t) (mux : Nat)
    (trace : List BusOp) :
    pair_reflects (ads1115_read_single bus dev mux (some 0) trace)
      (hi_byte (chan_raw (ads1115_read_single bus dev mux (some 0) trace)))
      (lo_byte (chan_raw (ads1115_read_single bus dev mux (some 0) trace))) := by
  unfold pair_reflects chan_raw
  by_cases hok : (ads1115_read_single bus dev mux (some 0) trace).ret = ESP_OK
  · obtain ⟨v, hv, hl, hu⟩ := read_single_ok_range bus dev mux (some 0) trace hok
    simp only [hok, ne_eq, not_true_eq_false, if_false, hv, Option.getD_some]
    exact ⟨hi_byte_lt v, lo_byte_lt v, by rw [decode_hi_lo v hl hu]⟩
  · simp only [hok, ne_eq, not_false_eq_true, if_true]
    constructor
    · have h := hi_byte_eq 0
      omega
    · have h := lo_byte_eq 0
      omega

/-- C2: whatever the bus answers, `gatts_read_adc` runs the four acquisitions in
the order 0, 1, 2, 3, each on the trace the previous one left, and sends one
response of length 8 in which the byte pair of every failed channel is 00 00 and
the pair of every successful channel is the big-endian encoding of the sample it
read.  The register writes it issues are the four configuration writes, for
channels 0, 1, 2, 3 in this order, when the handle is initialized (none
otherwise): a failed channel does not stop the later ones. -/
theorem gatts_read_adc_partial_failure (bus : Bus) (dev : ads1115_handle_t) (gatts_if : Nat)
    (param : read_evt_param) (trace : List BusOp) :
    let r0 := ads1115_read_single bus (some dev) ADS1115_MUX_SINGLE_0 (some 0) trace
    let r1 := ads1115_read_single bus (some dev) ADS1115_MUX_SINGLE_1 (some 0) r0.trace
    let r2 := ads1115_read_single bus (some dev) ADS1115_MUX_SINGLE_2 (some 0) r1.trace
    let r3 := ads1115_read_single bus (some dev) ADS1115_MUX_SINGLE_3 (some 0) r2.trace
    (∃ rsp : esp_gatt_rsp_t,
      (gatts_read_adc bus dev gatts_if param trace).link =
        [LinkOp.esp_ble_gatts_send_response gatts_if param.conn_id param.trans_id
          ESP_GATT_OK (some rsp)] ∧
      rsp.len = 8 ∧ rsp.value.length = 8 ∧
      pair_reflects r0 (rsp.value.getD 0 0) (rsp.value.getD 1 0) ∧
      pair_reflects r1 (rsp.value.getD 2 0) (rsp.value.getD 3 0) ∧
      pair_reflects r2 (rsp.value.getD 4 0) (rsp.value.getD 5 0) ∧
      pair_reflects r3 (rsp.value.getD 6 0) (rsp.value.getD 7 0)) ∧
    (gatts_read_adc bus dev gatts_if param trace).trace = r3.trace ∧
    ∃ ops, (gatts_read_adc bus dev gatts_if param trace).trace = trace ++ ops ∧
      ops.filter BusOp.isTransmit =
        if dev.initialized then
          [config_write_op dev ADS1115_MUX_SINGLE_0, config_write_op dev ADS1115_MUX_SINGLE_1,
           config_write_op dev ADS1115_MUX_SINGLE_2, config_write_op dev ADS1115_MUX_SINGLE_3]
        else [] := by
  intro r0 r1 r2 r3
  refine ⟨⟨_, rfl, rfl, rfl, ?_, ?_, ?_, ?_⟩, rfl, ?_⟩
  · exact pair_reflects_chan_raw bus (some dev) ADS1115_MUX_SINGLE_0 trace
  · exact pair_reflects_chan_raw bus (some dev) ADS1115_MUX_SINGLE_1 r0.trace
  · exact pair_reflects_chan_raw bus (some dev) ADS1115_MUX_SINGLE_2 r1.trace
  · exact pair_reflects_chan_raw bus (some dev) ADS1115_MUX_SINGLE_3 r2.trace
  · show ∃ ops, r3.trace = trace ++ ops ∧ _
    cases h : dev.initialized with
    | false =>
      refine ⟨[], ?_, by simp⟩
      simp only [r3, r2, r1, r0, read_single_uninit _ _ _ _ _ h, List.append_nil]
    | true =>
      obtain ⟨o0, e0, f0⟩ := read_single_trace_init bus dev ADS1115_MUX_SINGLE_0 0 trace h
      obtain ⟨o1, e1, f1⟩ := read_single_trace_init bus dev ADS1115_MUX_SINGLE_1 0 r0.trace h
      obtain ⟨o2, e2, f2⟩ := read_single_trace_init bus dev ADS1115_MUX_SINGLE_2 0 r1.trace h
      obtain ⟨o3, e3, f3⟩ := read_single_trace_init bus dev ADS1115_MUX_SINGLE_3 0 r2.trace h
      refine ⟨o0 ++ o1 ++ o2 ++ o3, ?_, ?_⟩
      · show r3.trace = _
        have e3t : r3.trace = r2.trace ++ o3 := e3
        have e2t : r2.trace = r1.trace ++ o2 := e2
        have e1t : r1.trace = r0.trace ++ o1 := e1
        have e0t : r0.trace = trace ++ o0 := e0
        rw [e3t, e2t, e1t, e0t]
        simp only [List.append_assoc]
      · simp only [List.filter_append, f0, f1, f2, f3, if_true]
        rfl

/-- Witness of C2: the configuration write of channel 2 fails with error `-1`;
the response is still sent, with bytes 01 02 FF CE 00 00 80 00, and channel 3 is
acquired after the failure. -/
theorem gatts_read_adc_partial_failure_witness :
    (ads1115_read_single bus_chan2_fails (some setup_dev) ADS1115_MUX_SINGLE_2 (some 0)
        (acquisition_ops 0xC263 ++ acquisition_ops 0xD263)
      = ⟨-1, some 0, acquisition_ops 0xC263 ++ acquisition_ops 0xD263 ++
          [BusOp.i2c_master_transmit 1 [0x01, 0xE2, 0x63] 1000]⟩) ∧
    gatts_read_adc bus_chan2_fails setup_dev 3 ⟨0, 7, 42⟩ []
      = ⟨[LinkOp.esp_ble_gatts_send_response 3 0 7 ESP_GATT_OK
            (some ⟨42, 8, [0x01, 0x02, 0xFF, 0xCE, 0x00, 0x00, 0x80, 0x00]⟩)],
         acquisition_ops 0xC263 ++ acquisition_ops 0xD263 ++
           [BusOp.i2c_master_transmit 1 [0x01, 0xE2, 0x63] 1000] ++ acquisition_ops 0xF263⟩ ∧
    (∃ ops, (gatts_read_adc bus_chan2_fails setup_dev 3 ⟨0, 7, 42⟩ []).trace = [] ++ ops ∧
      ops.filter BusOp.isTransmit =
        if setup_dev.initialized then
          [config_write_op setup_dev ADS1115_MUX_SINGLE_0,
           config_write_op setup_dev ADS1115_MUX_SINGLE_1,
           config_write_op setup_dev ADS1115_MUX_SINGLE_2,
           config_write_op setup_dev ADS1115_MUX_SINGLE_3]
        else []) := by
  have h0 : ads1115_read_single bus_chan2_fails (some setup_dev) ADS1115_MUX_SINGLE_0
      (some 0) [] = ⟨ESP_OK, some 0x0102, acquisition_ops 0xC263⟩ := by decide
  have h1 : ads1115_read_single bus_chan2_fails (some setup_dev) ADS1115_MUX_SINGLE_1
      (some 0) (acquisition_ops 0xC263)
      = ⟨ESP_OK, some (-50), acquisition_ops 0xC263 ++ acquisition_ops 0xD263⟩ := by decide
  have h2 : ads1115_read_single bus_chan2_fails (some setup_dev) ADS1115_MUX_SINGLE_2
      (some 0) (acquisition_ops 0xC263 ++ acquisition_ops 0xD263)
      = ⟨-1, some 0, acquisition_ops 0xC263 ++ acquisition_ops 0xD263 ++
          [BusOp.i2c_master_transmit 1 [0x01, 0xE2, 0x63] 1000]⟩ := by decide
  have h3 : ads1115_read_single bus_chan2_fails (some setup_dev) ADS1115_MUX_SINGLE_3
      (some 0) (acquisition_ops 0xC263 ++ acquisition_ops 0xD263 ++
          [BusOp.i2c_master_transmit 1 [0x01, 0xE2, 0x63] 1000])
      = ⟨ESP_OK, some (-32768), acquisition_ops 0xC263 ++ acquisition_ops 0xD263 ++
          [BusOp.i2c_master_transmit 1 [0x01, 0xE2, 0x63] 1000] ++ acquisition_ops 0xF263⟩ := by
    decide
  refine ⟨h2, ?_,
    (gatts_read_adc_partial_failure bus_chan2_fails setup_dev 3 ⟨0, 7, 42⟩ []).2.2⟩
  have b1 : hi_byte 0x0102 = 0x01 := by have h := hi_byte_eq 0x0102; omega
  have b2 : lo_byte 0x0102 = 0x02 := by have h := lo_byte_eq 0x0102; omega
  have b3 : hi_byte (-50) = 0xFF := by have h := hi_byte_eq (-50); omega
  have b4 : lo_byte (-50) = 0xCE := by have h := lo_byte_eq (-50); omega
  have b5 : hi_byte 0 = 0x00 := by have h := hi_byte_eq 0; omega
  have b6 : lo_byte 0 = 0x00 := by have h := lo_byte_eq 0; omega
  have b7 : hi_byte (-32768) = 0x80 := by have h := hi_byte_eq (-32768); omega
  have b8 : lo_byte (-32768) = 0x00 := by have h := lo_byte_eq (-32768); omega
  have e : ((-1 : Int) = ESP_OK) = False := by decide
  simp only [gatts_read_adc, h0, h1, h2, h3]
  simp [chan_raw, b1, b2, b3, b4, b5, b6, b7, b8, e]

/-! ## The output controller -/

/-- C3: for every Output State, `handle_dac_write 254` leaves the enabled flag
true and `handle_dac_write 253` leaves it false, whatever it was before, and
neither changes the stored level. -/
theorem handle_dac_write_sentinels (s : OutputState) :
    (handle_dac_write 254 s).dac_enabled = true ∧
    (handle_dac_write 254 s).dac_out_val = s.dac_out_val ∧
    (handle_dac_write 253 s).dac_enabled = false ∧
    (handle_dac_write 253 s).dac_out_val = s.dac_out_val := by
  simp [handle_dac_write]

/-- C4: for every Output State and every byte `b` other than 253 and 254,
`handle_dac_write b` sets the stored level to `b` and keeps the enabled flag,
and applying it a second time gives the same Output State as the first. -/
theorem handle_dac_write_level (s : OutputState) (b : Nat) (h253 : b ≠ 253)
    (h254 : b ≠ 254) :
    (handle_dac_write b s).dac_out_val = b ∧
    (handle_dac_write b s).dac_enabled = s.dac_enabled ∧
    handle_dac_write b (handle_dac_write b s) = handle_dac_write b s := by
  simp [handle_dac_write, h253, h254]

/-- Witness of C4: the byte 0x10 sets the level to 16. -/
theorem handle_dac_write_level_witness :
    (0x10 ≠ 253 ∧ 0x10 ≠ 254) ∧
    ((handle_dac_write 0x10 ⟨200, true⟩).dac_out_val = 0x10 ∧
     (handle_dac_write 0x10 ⟨200, true⟩).dac_enabled = true ∧
     handle_dac_write 0x10 (handle_dac_write 0x10 ⟨200, true⟩)
       = handle_dac_write 0x10 ⟨200, true⟩) ∧
    handle_dac_write 0x10 ⟨200, true⟩ = ⟨16, true⟩ :=
  ⟨⟨by decide, by decide⟩,
   handle_dac_write_level ⟨200, true⟩ 0x10 (by decide) (by decide), by decide⟩

/-- C5: for every Output State and whatever the output stage answers, one
iteration of the output task writes exactly one level to the output stage, the
stored level when the output is enabled and 255 when it is not, and leaves the
Output State as it was.  After the byte 0x10 was written, the level applied is
16 when enabled and 255 when disabled. -/
theorem dac_output_task_iteration_applies (s : OutputState) (ret : esp_err_t) :
    written_levels (dac_output_task_iteration s ret).1
      = [if s.dac_enabled then s.dac_out_val else 255] ∧
    (dac_output_task_iteration s ret).2 = s ∧
    written_levels
      (dac_output_task_iteration (handle_dac_write 0x10 ⟨s.dac_out_val, true⟩) ret).1 = [16] ∧
    written_levels
      (dac_output_task_iteration (handle_dac_write 0x10 ⟨s.dac_out_val, false⟩) ret).1
        = [255] := by
  refine ⟨?_, ?_, ?_, ?_⟩
  · unfold dac_output_task_iteration
    by_cases he : s.dac_enabled = true <;> by_cases hr : ret = ESP_OK <;>
      simp [he, hr, written_levels]
  · unfold dac_output_task_iteration
    by_cases hr : ret = ESP_OK <;> simp [hr]
  · unfold dac_output_task_iteration
    by_cases hr : ret = ESP_OK <;> simp [hr, written_levels, handle_dac_write]
  · unfold dac_output_task_iteration
    by_cases hr : ret = ESP_OK <;> simp [hr, written_levels, handle_dac_write]

/-! ## Scaling and timing of the driver -/

/-- C6: for every raw sample, `ads1115_raw_to_voltage` is the sample times the
scale constant of the gain selector (0.1875, 0.125, 0.0625, 0.03125, 0.015625,
0.0078125 mV per LSB for the 6.144 V .. 0.256 V ranges), for every gain value
that is none of the six selectors it is the sample times 0.125, and for every
gain value it is additive and homogeneous in the sample. -/
theorem raw_to_voltage_scale (raw : Int) :
    ads1115_raw_to_voltage raw ADS1115_PGA_6_144V = (raw : ℚ) * 0.1875 ∧
    ads1115_raw_to_voltage raw ADS1115_PGA_4_096V = (raw : ℚ) * 0.125 ∧
    ads1115_raw_to_voltage raw ADS1115_PGA_2_048V = (raw : ℚ) * 0.0625 ∧
    ads1115_raw_to_voltage raw ADS1115_PGA_1_024V = (raw : ℚ) * 0.03125 ∧
    ads1115_raw_to_voltage raw ADS1115_PGA_0_512V = (raw : ℚ) * 0.015625 ∧
    ads1115_raw_to_voltage raw ADS1115_PGA_0_256V = (raw : ℚ) * 0.0078125 ∧
    (∀ gain : Nat, gain ≠ ADS1115_PGA_6_144V → gain ≠ ADS1115_PGA_4_096V →
      gain ≠ ADS1115_PGA_2_048V → gain ≠ ADS1115_PGA_1_024V →
      gain ≠ ADS1115_PGA_0_512V → gain ≠ ADS1115_PGA_0_256V →
      ads1115_raw_to_voltage raw gain = (raw : ℚ) * 0.125) ∧
    (∀ (gain : Nat) (other k : Int),
      ads1115_raw_to_voltage (raw + other) gain
        = ads1115_raw_to_voltage raw gain + ads1115_raw_to_voltage other gain ∧
      ads1115_raw_to_voltage (k * raw) gain = (k : ℚ) * ads1115_raw_to_voltage raw gain) := by
  refine ⟨?_, ?_, ?_, ?_, ?_, ?_, ?_, ?_⟩
  · simp [ads1115_raw_to_voltage, ADS1115_PGA_6_144V]
  · simp [ads1115_raw_to_voltage, ADS1115_PGA_6_144V, ADS1115_PGA_4_096V]
  · simp [ads1115_raw_to_voltage, ADS1115_PGA_6_144V, ADS1115_PGA_4_096V, ADS1115_PGA_2_048V]
  · simp [ads1115_raw_to_voltage, ADS1115_PGA_6_144V, ADS1115_PGA_4_096V, ADS1115_PGA_2_048V,
      ADS1115_PGA_1_024V]
  · simp [ads1115_raw_to_voltage, ADS1115_PGA_6_144V, ADS1115_PGA_4_096V, ADS1115_PGA_2_048V,
      ADS1115_PGA_1_024V, ADS1115_PGA_0_512V]
  · simp [ads1115_raw_to_voltage, ADS1115_PGA_6_144V, ADS1115_PGA_4_096V, ADS1115_PGA_2_048V,
      ADS1115_PGA_1_024V, ADS1115_PGA_0_512V, ADS1115_PGA_0_256V]
  · intro gain h1 h2 h3 h4 h5 h6
    simp [ads1115_raw_to_voltage, h1, h2, h3, h4, h5, h6]
  · intro gain other k
    unfold ads1115_raw_to_voltage
    constructor
    · push_cast
      ring
    · push_cast
      ring

/-- Witness of C6: the sample -50 at the unrecognized gain value 0x0C00 gives
-6.25 mV, as at the 4.096 V range, and 100 at the 6.144 V range gives 18.75 mV. -/
theorem raw_to_voltage_scale_witness :
    (0x0C00 ≠ ADS1115_PGA_6_144V ∧ 0x0C00 ≠ ADS1115_PGA_4_096V ∧
     0x0C00 ≠ ADS1115_PGA_2_048V ∧ 0x0C00 ≠ ADS1115_PGA_1_024V ∧
     0x0C00 ≠ ADS1115_PGA_0_512V ∧ 0x0C00 ≠ ADS1115_PGA_0_256V) ∧
    ads1115_raw_to_voltage (-50) 0x0C00 = ((-50 : Int) : ℚ) * 0.125 ∧
    ads1115_raw_to_voltage (-50) 0x0C00 = -6.25 ∧
    ads1115_raw_to_voltage 100 ADS1115_PGA_6_144V = 18.75 := by
  have h := (raw_to_voltage_scale (-50)).2.2.2.2.2.2.1 0x0C00 (by decide) (by decide)
    (by decide) (by decide) (by decide) (by decide)
  refine ⟨⟨by decide, by decide, by decide, by decide, by decide, by decide⟩, h, ?_, ?_⟩
  · rw [h]
    norm_num
  · rw [(raw_to_voltage_scale 100).1]
    norm_num

/-- The eight data-rate selectors with nominal rate and conversion delay. -/
theorem nominal_sps_cases (r n : Nat) (h : nominal_sps r = some n) :
    (n = 8 ∧ conversion_delay_ms r = 130) ∨ (n = 16 ∧ conversion_delay_ms r = 70) ∨
    (n = 32 ∧ conversion_delay_ms r = 35) ∨ (n = 64 ∧ conversion_delay_ms r = 20) ∨
    (n = 128 ∧ conversion_delay_ms r = 10) ∨ (n = 250 ∧ conversion_delay_ms r = 5) ∨
    (n = 475 ∧ conversion_delay_ms r = 3) ∨ (n = 860 ∧ conversion_delay_ms r = 2) := by
  unfold nominal_sps at h
  unfold conversion_delay_ms
  split_ifs at h ⊢ <;> simp_all

/-- C7: for any two data-rate selectors among the eight, if the nominal rate of
the first is at most that of the second, the conversion delay chosen for the
first is at least that of the second; the delay of 8 sps is the longest and the
delay of 860 sps the shortest. -/
theorem conversion_delay_antitone (r1 r2 n1 n2 : Nat) (h1 : nominal_sps r1 = some n1)
    (h2 : nominal_sps r2 = some n2) (hle : n1 ≤ n2) :
    conversion_delay_ms r2 ≤ conversion_delay_ms r1 ∧
    conversion_delay_ms r1 ≤ conversion_delay_ms ADS1115_DR_8SPS ∧
    conversion_delay_ms ADS1115_DR_860SPS ≤ conversion_delay_ms r1 := by
  have e8 : conversion_delay_ms ADS1115_DR_8SPS = 130 := by decide
  have e860 : conversion_delay_ms ADS1115_DR_860SPS = 2 := by decide
  have c1 := nominal_sps_cases r1 n1 h1
  have c2 := nominal_sps_cases r2 n2 h2
  omega

/-- Witness of C7: 16 sps against 475 sps, delays 70 ms and 3 ms. -/
theorem conversion_delay_antitone_witness :
    (nominal_sps ADS1115_DR_16SPS = some 16 ∧ nominal_sps ADS1115_DR_475SPS = some 475 ∧
      16 ≤ 475) ∧
    (conversion_delay_ms ADS1115_DR_475SPS ≤ conversion_delay_ms ADS1115_DR_16SPS ∧
     conversion_delay_ms ADS1115_DR_16SPS ≤ conversion_delay_ms ADS1115_DR_8SPS ∧
     conversion_delay_ms ADS1115_DR_860SPS ≤ conversion_delay_ms ADS1115_DR_16SPS) ∧
    conversion_delay_ms ADS1115_DR_16SPS = 70 ∧ conversion_delay_ms ADS1115_DR_475SPS = 3 :=
  ⟨⟨by decide, by decide, by decide⟩,
   conversion_delay_antitone ADS1115_DR_16SPS ADS1115_DR_475SPS 16 475 (by decide) (by decide)
     (by decide),
   by decide, by decide⟩

/-! ## Failures of the driver -/

theorem read_reg_ret (bus : Bus) (d : ads1115_handle_t) (reg value : Nat)
    (trace : List BusOp) :
    (ads1115_read_reg bus d reg value trace).1 = (bus (trace ++ [reg_read_op d reg])).ret := by
  unfold ads1115_read_reg reg_read_op
  simp only
  split
  · rfl
  · rename_i h
    simp only [ne_eq, not_not] at h
    exact h.symm

theorem write_reg_ret (bus : Bus) (d : ads1115_handle_t) (mux : Nat) (trace : List BusOp) :
    (ads1115_write_reg bus d ADS1115_REG_CONFIG
      (config_word mux d.config.gain d.config.data_rate) trace).1
      = (bus (trace ++ [config_write_op d mux])).ret := rfl

/-- The three ways an acquisition by an initialized handle ends, in terms of
what the bus answers to the configuration write and to the conversion read. -/
theorem read_single_init_eq (bus : Bus) (d : ads1115_handle_t) (mux : Nat) (c : Int)
    (trace : List BusOp) (hinit : d.initialized = true) :
    ads1115_read_single bus (some d) mux (some c) trace =
      if (bus (trace ++ [config_write_op d mux])).ret ≠ ESP_OK then
        ⟨(bus (trace ++ [config_write_op d mux])).ret, some c,
          trace ++ [config_write_op d mux]⟩
      else if (bus (trace ++ [config_write_op d mux, reg_read_op d ADS1115_REG_CONFIG,
          BusOp.vTaskDelay (conversion_delay_ms d.config.data_rate),
          reg_read_op d ADS1115_REG_CONVERSION])).ret ≠ ESP_OK then
        ⟨(bus (trace ++ [config_write_op d mux, reg_read_op d ADS1115_REG_CONFIG,
          BusOp.vTaskDelay (conversion_delay_ms d.config.data_rate),
          reg_read_op d ADS1115_REG_CONVERSION])).ret, some c,
          trace ++ [config_write_op d mux, reg_read_op d ADS1115_REG_CONFIG,
            BusOp.vTaskDelay (conversion_delay_ms d.config.data_rate),
            reg_read_op d ADS1115_REG_CONVERSION]⟩
      else
        ⟨ESP_OK,
          some (to_int16 (ads1115_read_reg bus d ADS1115_REG_CONVERSION 0
            (trace ++ [config_write_op d mux, reg_read_op d ADS1115_REG_CONFIG,
              BusOp.vTaskDelay (conversion_delay_ms d.config.data_rate)])).2.1),
          trace ++ [config_write_op d mux, reg_read_op d ADS1115_REG_CONFIG,
            BusOp.vTaskDelay (conversion_delay_ms d.config.data_rate),
            reg_read_op d ADS1115_REG_CONVERSION]⟩ := by
  simp only [ads1115_read_single, hinit, Bool.true_eq_false, if_false, write_reg_ret,
    write_reg_trace, read_reg_ret, read_reg_trace, List.append_assoc, List.cons_append,
    List.nil_append]

/-- Counterexample to C8 as stated: the readback of the configuration register
times out, yet `ads1115_read_single` goes on to the delay and the read of the
conversion register, returns `ESP_OK` and not the timeout, and stores the
sample 0x1234 in the output, which held 0. -/
theorem read_single_readback_failure_ignored :
    (bus_readback_fails
        [BusOp.i2c_master_transmit 1 [0x01, 0xC2, 0x63] 1000,
         BusOp.i2c_master_transmit_receive 1 [0x01] 2 1000]).ret = ESP_ERR_TIMEOUT ∧
    ESP_ERR_TIMEOUT ≠ ESP_OK ∧
    setup_dev.initialized = true ∧
    ads1115_read_single bus_readback_fails (some setup_dev) ADS1115_MUX_SINGLE_0 (some 0) []
      = ⟨ESP_OK, some 0x1234,
          [BusOp.i2c_master_transmit 1 [0x01, 0xC2, 0x63] 1000,
           BusOp.i2c_master_transmit_receive 1 [0x01] 2 1000,
           BusOp.vTaskDelay 20,
           BusOp.i2c_master_transmit_receive 1 [0x00] 2 1000]⟩ := by
  decide

/-- C8, amended: for an initialized handle, a non-null output and every channel
selector, a failing configuration-register write makes `ads1115_read_single`
return that error with the write as its only operation and the output
untouched; after a successful write, a failing conversion-register read makes it
return that error with the write, the readback, the delay and the read as its
only operations and the output untouched; and after a successful write and a
successful conversion-register read it returns `ESP_OK` after the same four
operations, whatever the readback answered.  No transaction is issued twice. -/
theorem read_single_bus_failure (bus : Bus) (d : ads1115_handle_t) (mux : Nat) (c : Int)
    (trace : List BusOp) (hinit : d.initialized = true) :
    let t1 := trace ++ [config_write_op d mux]
    let t4 := trace ++ [config_write_op d mux, reg_read_op d ADS1115_REG_CONFIG,
      BusOp.vTaskDelay (conversion_delay_ms d.config.data_rate),
      reg_read_op d ADS1115_REG_CONVERSION]
    ((bus t1).ret ≠ ESP_OK →
      ads1115_read_single bus (some d) mux (some c) trace = ⟨(bus t1).ret, some c, t1⟩) ∧
    ((bus t1).ret = ESP_OK → (bus t4).ret ≠ ESP_OK →
      ads1115_read_single bus (some d) mux (some c) trace = ⟨(bus t4).ret, some c, t4⟩) ∧
    ((bus t1).ret = ESP_OK → (bus t4).ret = ESP_OK →
      (ads1115_read_single bus (some d) mux (some c) trace).ret = ESP_OK ∧
      (ads1115_read_single bus (some d) mux (some c) trace).trace = t4) := by
  intro t1 t4
  have key := read_single_init_eq bus d mux c trace hinit
  refine ⟨?_, ?_, ?_⟩
  · intro h1
    rw [key, if_pos h1]
  · intro h1 h4
    rw [key, if_neg (not_not.mpr h1), if_pos h4]
  · intro h1 h4
    rw [key, if_neg (not_not.mpr h1), if_neg (not_not.mpr h4)]
    exact ⟨rfl, rfl⟩

/-- Witness of C8, amended: a timeout of the configuration write, and a failure
of the conversion read after a successful write and readback. -/
theorem read_single_bus_failure_witness :
    setup_dev.initialized = true ∧
    ((bus_write_fails ([] ++ [config_write_op setup_dev ADS1115_MUX_SINGLE_0])).ret ≠ ESP_OK ∧
      ads1115_read_single bus_write_fails (some setup_dev) ADS1115_MUX_SINGLE_0 (some 7) []
        = ⟨ESP_ERR_TIMEOUT, some 7, [BusOp.i2c_master_transmit 1 [0x01, 0xC2, 0x63] 1000]⟩) ∧
    ((bus_conversion_fails ([] ++ [config_write_op setup_dev ADS1115_MUX_SINGLE_0])).ret
        = ESP_OK ∧
      (bus_conversion_fails ([] ++ [config_write_op setup_dev ADS1115_MUX_SINGLE_0,
        reg_read_op setup_dev ADS1115_REG_CONFIG,
        BusOp.vTaskDelay (conversion_delay_ms setup_dev.config.data_rate),
        reg_read_op setup_dev ADS1115_REG_CONVERSION])).ret ≠ ESP_OK ∧
      ads1115_read_single bus_conversion_fails (some setup_dev) ADS1115_MUX_SINGLE_0 (some 7) []
        = ⟨ESP_FAIL, some 7, acquisition_ops 0xC263⟩) :=
  ⟨rfl,
   ⟨by decide,
    (read_single_bus_failure bus_write_fails setup_dev ADS1115_MUX_SINGLE_0 7 [] rfl).1
      (by decide)⟩,
   ⟨by decide, by decide,
    (read_single_bus_failure bus_conversion_fails setup_dev ADS1115_MUX_SINGLE_0 7 [] rfl).2.1
      (by decide) (by decide)⟩⟩

/-! ## Invalid arguments -/

/-- C9: `ads1115_read_single` returns `ESP_ERR_INVALID_ARG` with the trace and
the output as they were when the handle is null, the handle is not initialized
or the output pointer is null; so does `ads1115_read_voltage` when its output
pointer is null, the handle is null or the handle is not initialized. -/
theorem invalid_arg_before_bus (bus : Bus) (dev : Option ads1115_handle_t) (mux : Nat)
    (trace : List BusOp) :
    (∀ raw_value : Option Int,
      (dev = none ∨ (∃ d, dev = some d ∧ d.initialized = false) ∨ raw_value = none) →
      ads1115_read_single bus dev mux raw_value trace
        = ⟨ESP_ERR_INVALID_ARG, raw_value, trace⟩) ∧
    (∀ voltage : Option ℚ,
      (voltage = none ∨ dev = none ∨ (∃ d, dev = some d ∧ d.initialized = false)) →
      ads1115_read_voltage bus dev mux voltage trace
        = ⟨ESP_ERR_INVALID_ARG, voltage, trace⟩) := by
  have single : ∀ raw_value : Option Int,
      (dev = none ∨ (∃ d, dev = some d ∧ d.initialized = false) ∨ raw_value = none) →
      ads1115_read_single bus dev mux raw_value trace
        = ⟨ESP_ERR_INVALID_ARG, raw_value, trace⟩ := by
    intro raw_value h
    rcases h with h | ⟨d, hd, hi⟩ | h
    · subst h
      cases raw_value <;> rfl
    · subst hd
      cases raw_value with
      | none => rfl
      | some c => exact read_single_uninit bus d mux c trace hi
    · subst h
      cases dev <;> rfl
  refine ⟨single, ?_⟩
  intro voltage h
  cases voltage with
  | none => rfl
  | some v =>
    have hdev : dev = none ∨ (∃ d, dev = some d ∧ d.initialized = false) ∨
        (some (0 : Int)) = none := by
      rcases h with h | h | h
      · cases h
      · exact Or.inl h
      · exact Or.inr (Or.inl h)
    have e := single (some 0) hdev
    simp only [ads1115_read_voltage, e, ne_eq, invalid_arg_ne_ok, not_false_eq_true, if_true]

/-- Witness of C9: a null handle, an uninitialized handle and a null output
pointer, on a trace that already holds a delay. -/
theorem invalid_arg_before_bus_witness :
    ads1115_read_single bus_100_m50_0_32767 none ADS1115_MUX_SINGLE_0 (some 7)
        [BusOp.vTaskDelay 5] = ⟨ESP_ERR_INVALID_ARG, some 7, [BusOp.vTaskDelay 5]⟩ ∧
    ads1115_read_single bus_100_m50_0_32767 (some uninit_dev) ADS1115_MUX_SINGLE_0 (some 7)
        [BusOp.vTaskDelay 5] = ⟨ESP_ERR_INVALID_ARG, some 7, [BusOp.vTaskDelay 5]⟩ ∧
    ads1115_read_single bus_100_m50_0_32767 (some setup_dev) ADS1115_MUX_SINGLE_0 none
        [BusOp.vTaskDelay 5] = ⟨ESP_ERR_INVALID_ARG, none, [BusOp.vTaskDelay 5]⟩ ∧
    ads1115_read_voltage bus_100_m50_0_32767 (some setup_dev) ADS1115_MUX_SINGLE_0 none
        [BusOp.vTaskDelay 5] = ⟨ESP_ERR_INVALID_ARG, none, [BusOp.vTaskDelay 5]⟩ ∧
    ads1115_read_voltage bus_100_m50_0_32767 none ADS1115_MUX_SINGLE_0 (some 3)
        [BusOp.vTaskDelay 5] = ⟨ESP_ERR_INVALID_ARG, some 3, [BusOp.vTaskDelay 5]⟩ ∧
    ads1115_read_voltage bus_100_m50_0_32767 (some uninit_dev) ADS1115_MUX_SINGLE_0 (some 3)
        [BusOp.vTaskDelay 5] = ⟨ESP_ERR_INVALID_ARG, some 3, [BusOp.vTaskDelay 5]⟩ :=
  ⟨(invalid_arg_before_bus bus_100_m50_0_32767 none ADS1115_MUX_SINGLE_0
      [BusOp.vTaskDelay 5]).1 (some 7) (Or.inl rfl),
   (invalid_arg_before_bus bus_100_m50_0_32767 (some uninit_dev) ADS1115_MUX_SINGLE_0
      [BusOp.vTaskDelay 5]).1 (some 7) (Or.inr (Or.inl ⟨uninit_dev, rfl, rfl⟩)),
   (invalid_arg_before_bus bus_100_m50_0_32767 (some setup_dev) ADS1115_MUX_SINGLE_0
      [BusOp.vTaskDelay 5]).1 none (Or.inr (Or.inr rfl)),
   (invalid_arg_before_bus bus_100_m50_0_32767 (some setup_dev) ADS1115_MUX_SINGLE_0
      [BusOp.vTaskDelay 5]).2 none (Or.inl rfl),
   (invalid_arg_before_bus bus_100_m50_0_32767 none ADS1115_MUX_SINGLE_0
      [BusOp.vTaskDelay 5]).2 (some 3) (Or.inr (Or.inl rfl)),
   (invalid_arg_before_bus bus_100_m50_0_32767 (some uninit_dev) ADS1115_MUX_SINGLE_0
      [BusOp.vTaskDelay 5]).2 (some 3) (Or.inr (Or.inr ⟨uninit_dev, rfl, rfl⟩))⟩

/-! ## The write-request handler -/

/-- C10: on a write-requested event the handler changes the Output State to
`handle_dac_write` of the payload byte when the payload length is 1 and leaves
it as it was for every other length; it sends the acknowledgement exactly when
the request needs a response; and it touches neither the bus nor the rest of
the state. -/
theorem write_event_effect (bus : Bus) (gatts_if : Nat) (s : FirmwareState)
    (write : write_evt_param) :
    let s1 := gatts_profile_a_event_handler bus (GattsEvent.ESP_GATTS_WRITE_EVT write)
      gatts_if s
    (write.len = 1 → s1.out = handle_dac_write (write.value.getD 0 0) s.out) ∧
    (write.len ≠ 1 → s1.out = s.out) ∧
    (write.need_rsp = true →
      s1.link = s.link ++ [LinkOp.esp_ble_gatts_send_response gatts_if write.conn_id
        write.trans_id ESP_GATT_OK none]) ∧
    (write.need_rsp = false → s1.link = s.link) ∧
    s1.trace = s.trace ∧ s1.profile = s.profile ∧ s1.a_property = s.a_property ∧
    s1.ads1115_dev = s.ads1115_dev := by
  intro s1
  refine ⟨?_, ?_, ?_, ?_, rfl, rfl, rfl, rfl⟩
  · intro h
    simp [s1, gatts_profile_a_event_handler, h]
  · intro h
    simp [s1, gatts_profile_a_event_handler, h]
  · intro h
    simp [s1, gatts_profile_a_event_handler, h]
  · intro h
    simp [s1, gatts_profile_a_event_handler, h]

/-- Witness of C10: the one-byte payload 0x10 with a response wanted, an empty
payload with a response wanted, and a two-byte payload with none wanted. -/
theorem write_event_effect_witness :
    gatts_profile_a_event_handler bus_write_fails
        (GattsEvent.ESP_GATTS_WRITE_EVT ⟨0, 9, true, 1, [0x10]⟩) 3 scenario_state
      = { scenario_state with
          out := ⟨16, true⟩
          link := [LinkOp.esp_ble_gatts_send_response 3 0 9 ESP_GATT_OK none] } ∧
    gatts_profile_a_event_handler bus_write_fails
        (GattsEvent.ESP_GATTS_WRITE_EVT ⟨0, 9, true, 0, []⟩) 3 scenario_state
      = { scenario_state with
          link := [LinkOp.esp_ble_gatts_send_response 3 0 9 ESP_GATT_OK none] } ∧
    gatts_profile_a_event_handler bus_write_fails
        (GattsEvent.ESP_GATTS_WRITE_EVT ⟨0, 9, false, 2, [254, 0x10]⟩) 3 scenario_state
      = scenario_state ∧
    (gatts_profile_a_event_handler bus_write_fails
        (GattsEvent.ESP_GATTS_WRITE_EVT ⟨0, 9, true, 1, [0x10]⟩) 3 scenario_state).out
      = handle_dac_write 0x10 scenario_state.out ∧
    (gatts_profile_a_event_handler bus_write_fails
        (GattsEvent.ESP_GATTS_WRITE_EVT ⟨0, 9, false, 2, [254, 0x10]⟩) 3 scenario_state).out
      = scenario_state.out ∧
    (gatts_profile_a_event_handler bus_write_fails
        (GattsEvent.ESP_GATTS_WRITE_EVT ⟨0, 9, false, 2, [254, 0x10]⟩) 3 scenario_state).link
      = scenario_state.link :=
  ⟨by decide, by decide, by decide,
   (write_event_effect bus_write_fails 3 scenario_state ⟨0, 9, true, 1, [0x10]⟩).1 rfl,
   (write_event_effect bus_write_fails 3 scenario_state ⟨0, 9, false, 2, [254, 0x10]⟩).2.1
     (by decide),
   (write_event_effect bus_write_fails 3 scenario_state
     ⟨0, 9, false, 2, [254, 0x10]⟩).2.2.2.1 rfl⟩

/-! ## The conversion delay against the conversion period -/

/-- Counterexample to C11 as stated: at 8 sps the conversion period is 125 ms
and the delay chosen is 130 ms, less than 1.5 times the period (187.5 ms). -/
theorem delay_8sps_below_one_and_a_half_periods :
    nominal_sps ADS1115_DR_8SPS = some 8 ∧
    conversion_period_ms 8 = 125 ∧
    conversion_delay_ms ADS1115_DR_8SPS = 130 ∧
    ¬ (1.5 * conversion_period_ms 8 ≤ (conversion_delay_ms ADS1115_DR_8SPS : ℚ)) := by
  have hd : conversion_delay_ms ADS1115_DR_8SPS = 130 := by decide
  refine ⟨by decide, ?_, hd, ?_⟩
  · unfold conversion_period_ms
    norm_num
  · rw [hd]
    unfold conversion_period_ms
    norm_num

/-- C11, amended: for each of the eight data-rate selectors, of nominal rate
`n` sps, the delay chosen by `ads1115_read_single` is longer than the
theoretical conversion period `1000 / n` ms and at most 2.5 times that
period. -/
theorem conversion_delay_bounds (r n : Nat) (h : nominal_sps r = some n) :
    conversion_period_ms n < (conversion_delay_ms r : ℚ) ∧
    (conversion_delay_ms r : ℚ) ≤ 2.5 * conversion_period_ms n := by
  unfold conversion_period_ms
  rcases nominal_sps_cases r n h with ⟨hn, hd⟩ | ⟨hn, hd⟩ | ⟨hn, hd⟩ | ⟨hn, hd⟩ |
    ⟨hn, hd⟩ | ⟨hn, hd⟩ | ⟨hn, hd⟩ | ⟨hn, hd⟩ <;>
  · rw [hn, hd]
    norm_num

/-- Witness of C11, amended: 8 sps, period 125 ms, delay 130 ms; and 860 sps,
delay 2 ms. -/
theorem conversion_delay_bounds_witness :
    nominal_sps ADS1115_DR_8SPS = some 8 ∧
    (conversion_period_ms 8 < (conversion_delay_ms ADS1115_DR_8SPS : ℚ) ∧
     (conversion_delay_ms ADS1115_DR_8SPS : ℚ) ≤ 2.5 * conversion_period_ms 8) ∧
    nominal_sps ADS1115_DR_860SPS = some 860 ∧
    (conversion_period_ms 860 < (conversion_delay_ms ADS1115_DR_860SPS : ℚ) ∧
     (conversion_delay_ms ADS1115_DR_860SPS : ℚ) ≤ 2.5 * conversion_period_ms 860) :=
  ⟨by decide, conversion_delay_bounds ADS1115_DR_8SPS 8 (by decide),
   by decide, conversion_delay_bounds ADS1115_DR_860SPS 860 (by decide)⟩

/-! ## The configuration word -/

/-- The fields of the configuration word over all selectors, by enumeration of
the 4 * 6 * 8 combinations. -/
theorem config_word_fields_all :
    ∀ mux ∈ single_ended_selectors, ∀ gain ∈ gain_selectors, ∀ rate ∈ rate_selectors,
      config_word mux gain rate
        = ADS1115_OS_SINGLE ||| mux ||| gain ||| ADS1115_CQUE_NONE ||| rate ∧
      config_word mux gain rate < 65536 ∧
      config_word mux gain rate &&& 0x8000 = 0x8000 ∧
      config_word mux gain rate &&& 0x7000 = mux ∧
      config_word mux gain rate &&& 0x0E00 = gain ∧
      config_word mux gain rate &&& 0x00E0 = rate ∧
      config_word mux gain rate &&& 0x011F = 0x0003 := by
  decide

/-- C12: for every single-ended channel selector, gain selector and data-rate
selector, the configuration word is the OR of the start flag, the channel
selector, the gain, the comparator-disable bits and the rate, it fits 16 bits,
and masking recovers each field: `0x8000` the start flag, `0x7000` the channel
selector, `0x0E00` the gain, `0x00E0` the rate, and `0x011F` gives `0x0003`.
This word, high byte first after the register address, is the one register
write an acquisition by an initialized handle with that gain and rate issues. -/
theorem config_word_fields (mux gain rate : Nat) (hmux : mux ∈ single_ended_selectors)
    (hgain : gain ∈ gain_selectors) (hrate : rate ∈ rate_selectors) :
    (config_word mux gain rate
        = ADS1115_OS_SINGLE ||| mux ||| gain ||| ADS1115_CQUE_NONE ||| rate ∧
      config_word mux gain rate < 65536 ∧
      config_word mux gain rate &&& 0x8000 = 0x8000 ∧
      config_word mux gain rate &&& 0x7000 = mux ∧
      config_word mux gain rate &&& 0x0E00 = gain ∧
      config_word mux gain rate &&& 0x00E0 = rate ∧
      config_word mux gain rate &&& 0x011F = 0x0003) ∧
    ∀ (bus : Bus) (addr handle : Nat) (c : Int) (trace : List BusOp),
      ∃ ops,
        (ads1115_read_single bus (some ⟨⟨addr, gain, rate⟩, handle, true⟩) mux (some c)
          trace).trace = trace ++ ops ∧
        ops.filter BusOp.isTransmit =
          [BusOp.i2c_master_transmit handle
            [0x01, (config_word mux gain rate >>> 8) &&& 0xFF,
             config_word mux gain rate &&& 0xFF] 1000] := by
  refine ⟨config_word_fields_all mux hmux gain hgain rate hrate, ?_⟩
  intro bus addr handle c trace
  exact read_single_trace_init bus ⟨⟨addr, gain, rate⟩, handle, true⟩ mux c trace rfl

/-- Witness of C12: channel 0, gain 4.096 V and 64 sps give the word 0xC263,
written as the bytes 01 C2 63. -/
theorem config_word_fields_witness :
    (ADS1115_MUX_SINGLE_0 ∈ single_ended_selectors ∧ ADS1115_PGA_4_096V ∈ gain_selectors ∧
      ADS1115_DR_64SPS ∈ rate_selectors) ∧
    config_word ADS1115_MUX_SINGLE_0 ADS1115_PGA_4_096V ADS1115_DR_64SPS = 0xC263 ∧
    (config_word ADS1115_MUX_SINGLE_0 ADS1115_PGA_4_096V ADS1115_DR_64SPS
        = ADS1115_OS_SINGLE ||| ADS1115_MUX_SINGLE_0 ||| ADS1115_PGA_4_096V |||
            ADS1115_CQUE_NONE ||| ADS1115_DR_64SPS ∧
      config_word ADS1115_MUX_SINGLE_0 ADS1115_PGA_4_096V ADS1115_DR_64SPS < 65536 ∧
      config_word ADS1115_MUX_SINGLE_0 ADS1115_PGA_4_096V ADS1115_DR_64SPS &&& 0x8000
        = 0x8000 ∧
      config_word ADS1115_MUX_SINGLE_0 ADS1115_PGA_4_096V ADS1115_DR_64SPS &&& 0x7000
        = ADS1115_MUX_SINGLE_0 ∧
      config_word ADS1115_MUX_SINGLE_0 ADS1115_PGA_4_096V ADS1115_DR_64SPS &&& 0x0E00
        = ADS1115_PGA_4_096V ∧
      config_word ADS1115_MUX_SINGLE_0 ADS1115_PGA_4_096V ADS1115_DR_64SPS &&& 0x00E0
        = ADS1115_DR_64SPS ∧
      config_word ADS1115_MUX_SINGLE_0 ADS1115_PGA_4_096V ADS1115_DR_64SPS &&& 0x011F
        = 0x0003) ∧
    (ads1115_read_single bus_write_fails (some setup_dev) ADS1115_MUX_SINGLE_0 (some 0)
        []).trace = [BusOp.i2c_master_transmit 1 [0x01, 0xC2, 0x63] 1000] :=
  ⟨⟨by decide, by decide, by decide⟩, by decide,
   (config_word_fields ADS1115_MUX_SINGLE_0 ADS1115_PGA_4_096V ADS1115_DR_64SPS
     (by decide) (by decide) (by decide)).1,
   by decide⟩

end OpenTDCS
